import Mathlib

/-!
Shallow embedding of the adaptive-learning / analytics core of the OppaTalent
repository (`src/adaptive_engine.py`, `src/analytics_engine.py`) together with
theorems checking the natural-language specification against the code.

Modelling conventions:
- Python `float` is modelled by `ℚ` (exact rational arithmetic);
- Python `int` by `ℤ`;
- `datetime` values by `ℤ` (seconds since the epoch, i.e. second granularity);
- Python `dict` (insertion ordered) by an association list `PyDict α`,
  updated in place when the key exists, appended otherwise;
- fields read with `d.get(key, default)` are modelled either by an `Option`
  (when key *presence* matters to the code) or directly by the defaulted value.
-/

namespace OppaTalent

/-- Python dict with string keys, modelled as an insertion-ordered
association list. -/
abbrev PyDict (α : Type) := List (String × α)

/-- `key in d` -/
def dmem (d : PyDict α) (k : String) : Bool := d.any (fun p => p.1 == k)

/-- `d.get(key)` -/
def dget (d : PyDict α) (k : String) : Option α :=
  (d.find? (fun p => p.1 == k)).map (fun p => p.2)

/-- `d.get(key, default)` -/
def dgetD (d : PyDict α) (k : String) (v : α) : α := (dget d k).getD v

/-- `d[key] = v`: replaces in place when present (keeping position, as Python
dicts do), appends otherwise. -/
def dset (d : PyDict α) (k : String) (v : α) : PyDict α :=
  if dmem d k then d.map (fun p => if p.1 == k then (k, v) else p)
  else d ++ [(k, v)]

/-- `list(d.keys())` -/
def dkeys (d : PyDict α) : List String := d.map (fun p => p.1)

/-- Python `int(x)` for a float: truncation toward zero. -/
def pyInt (q : ℚ) : ℤ := if 0 ≤ q then ⌊q⌋ else -⌊-q⌋

/-- The `.days` component of a `timedelta` of `d` seconds:
floor division by 86400. -/
def pyTimedeltaDays (d : ℤ) : ℤ := Int.fdiv d 86400

/-- The `.seconds` component of a normalized `timedelta` of `d` seconds:
what remains after removing whole days, always in `[0, 86400)`.
(This is NOT the total length of the delta: `timedelta.seconds` discards
the `.days` component.) -/
def pyTimedeltaSeconds (d : ℤ) : ℤ := d % 86400

/-- Python list indexing with negative-index wrap-around, with a default for
out-of-range indices (the code only indexes in range). -/
def pyGetElem (l : List α) (i : ℤ) (dflt : α) : α :=
  if 0 ≤ i then l.getD i.toNat dflt
  else l.getD (l.length - (-i).toNat) dflt

/-! ## `src/adaptive_engine.py` -/

/-- `PerformanceLevel` enum. -/
inductive PerformanceLevel where
  | struggling
  | developing
  | proficient
  | advanced
deriving DecidableEq

/-- `LearnerProfile` dataclass (with the `__post_init__` defaults). -/
structure LearnerProfile where
  user_id : String
  total_questions_answered : ℤ := 0
  correct_answers : ℤ := 0
  topics_mastery : PyDict ℚ := []
  bloom_performance : PyDict ℚ := []
  average_time_per_question : ℚ := 0
  learning_velocity : ℚ := 0
  last_session : Option ℤ := none
  strengths : List String := []
  weaknesses : List String := []
  preferred_question_types : List String := []
deriving DecidableEq

/-- One entry of `history['recent_sessions']`, with the `session.get(...)`
defaults already applied. -/
structure SessionData where
  questions_answered : ℤ := 0
  correct_answers : ℤ := 0
  topic_performance : PyDict ℚ := []
  bloom_performance : PyDict ℚ := []
  accuracy : ℚ := 0
deriving DecidableEq

/-- The `learning_history` dict passed to `adjust_config`.  `user_id` and
`recent_sessions` are `Option`s because the code tests key presence. -/
structure LearningHistory where
  user_id : Option String := none
  recent_sessions : Option (List SessionData) := none
deriving DecidableEq

/-- Values stored in a quiz-configuration dict. -/
inductive ConfigVal where
  | int (n : ℤ)
  | dist (d : PyDict ℚ)
  | strs (l : List String)
deriving DecidableEq

/-- A quiz configuration dict. -/
abbrev Config := PyDict ConfigVal

/-- `config.get(key, default)` where an integer is expected. -/
def cfgGetInt (c : Config) (k : String) (dflt : ℤ) : ℤ :=
  match dget c k with
  | some (ConfigVal.int n) => n
  | _ => dflt

/-- `config.get(key, default)` where a list of strings is expected. -/
def cfgGetStrs (c : Config) (k : String) (dflt : List String) : List String :=
  match dget c k with
  | some (ConfigVal.strs l) => l
  | _ => dflt

/-- `config[key]` where a distribution dict is expected. -/
def cfgGetDist (c : Config) (k : String) : PyDict ℚ :=
  match dget c k with
  | some (ConfigVal.dist d) => d
  | _ => []

/-- `self.repetition_intervals = [1, 3, 7, 14, 30, 90]` (days). -/
def repetition_intervals : List ℤ := [1, 3, 7, 14, 30, 90]

/-- `_calculate_performance_level`: threshold classification, thresholds
checked in descending order (ADVANCED 0.95, PROFICIENT 0.8, DEVELOPING 0.6),
zero questions answered defaulting to DEVELOPING. -/
def calculate_performance_level (profile : LearnerProfile) : PerformanceLevel :=
  if profile.total_questions_answered = 0 then PerformanceLevel.developing
  else
    let accuracy : ℚ := (profile.correct_answers : ℚ) / (profile.total_questions_answered : ℚ)
    if accuracy ≥ 0.95 then PerformanceLevel.advanced
    else if accuracy ≥ 0.8 then PerformanceLevel.proficient
    else if accuracy ≥ 0.6 then PerformanceLevel.developing
    else PerformanceLevel.struggling

/-- The `distributions` table of `_adjust_difficulty_distribution`. -/
def distributions : PerformanceLevel → PyDict ℚ
  | PerformanceLevel.struggling =>
      [("remember", 0.4), ("understand", 0.4), ("apply", 0.15), ("analyze", 0.05)]
  | PerformanceLevel.developing =>
      [("remember", 0.25), ("understand", 0.35), ("apply", 0.25), ("analyze", 0.15)]
  | PerformanceLevel.proficient =>
      [("remember", 0.15), ("understand", 0.25), ("apply", 0.35), ("analyze", 0.25)]
  | PerformanceLevel.advanced =>
      [("remember", 0.05), ("understand", 0.15), ("apply", 0.30), ("analyze", 0.30),
       ("evaluate", 0.10), ("create", 0.10)]

/-- `_adjust_difficulty_distribution`: install the level's base distribution,
multiply by 1.2 every level present in both it and the profile's
`bloom_performance` with performance < 0.5 (iterating `bloom_performance` in
dict order, reading the current — possibly already boosted — weight), then
renormalize the whole distribution by its sum. -/
def adjust_difficulty_distribution (config : Config) (level : PerformanceLevel)
    (profile : LearnerProfile) : Config :=
  let d0 := distributions level
  let d1 :=
    if profile.bloom_performance ≠ [] then
      profile.bloom_performance.foldl
        (fun d p =>
          if p.2 < 0.5 ∧ dmem d p.1 then dset d p.1 (dgetD d p.1 0 * 1.2) else d)
        d0
    else d0
  let total := (d1.map (fun p => p.2)).sum
  let d2 := d1.map (fun p => (p.1, p.2 / total))
  dset config "difficulty_distribution" (ConfigVal.dist d2)

/-- One candidate of `topics_to_review`. -/
structure TopicReview where
  topic : String
  priority : ℚ
  reason : String
deriving DecidableEq

/-- `_select_adaptive_topics`: weak topics (mastery < 0.6, priority
`1 - mastery`), then topics due for spaced repetition (interval tier from
truncated `mastery * 6` clamped to 5, due when days since last session reach
the interval), sorted by priority descending (stable, as Python's sort), the
first five topic names becoming `focus_topics`.  `now` is the clock value
`datetime.now()` reads. -/
def select_adaptive_topics (now : ℤ) (config : Config)
    (profile : LearnerProfile) : Config :=
  let weak : List TopicReview :=
    profile.topics_mastery.filterMap
      (fun p => if p.2 < 0.6 then some ⟨p.1, 1 - p.2, "weakness"⟩ else none)
  let spaced : List TopicReview :=
    match profile.last_session with
    | none => []
    | some ls =>
      let days_since_last := pyTimedeltaDays (now - ls)
      profile.topics_mastery.filterMap
        (fun p =>
          let interval_index := min (pyInt (p.2 * (repetition_intervals.length : ℚ)))
            ((repetition_intervals.length : ℤ) - 1)
          let review_interval := pyGetElem repetition_intervals interval_index 0
          if days_since_last ≥ review_interval then
            some ⟨p.1, 0.5, "spaced_repetition"⟩
          else none)
  let topics_to_review := weak ++ spaced
  let sorted := topics_to_review.mergeSort (fun a b => decide (b.priority ≤ a.priority))
  dset config "focus_topics" (ConfigVal.strs ((sorted.take 5).map (fun t => t.topic)))

/-- `_adjust_question_count`: both the timing-based and the velocity-based
adjustment read `base_questions = config.get('num_questions', 10)` captured
before either runs; each conditionally writes `config['num_questions']`. -/
def adjust_question_count (config : Config) (profile : LearnerProfile) : Config :=
  let base_questions := cfgGetInt config "num_questions" 10
  let config :=
    if profile.average_time_per_question > 0 then
      if profile.average_time_per_question > 120 then
        dset config "num_questions" (ConfigVal.int (max 5 (base_questions - 2)))
      else if profile.average_time_per_question < 30 then
        dset config "num_questions" (ConfigVal.int (min 20 (base_questions + 2)))
      else config
    else config
  if profile.learning_velocity > 0.1 then
    dset config "num_questions" (ConfigVal.int (min 20 (base_questions + 3)))
  else if profile.learning_velocity < -0.1 then
    dset config "num_questions" (ConfigVal.int (max 5 (base_questions - 3)))
  else config

/-- `_select_question_types`: when the learner has preferred types, each
requested type is emitted twice if preferred, once otherwise. -/
def select_question_types (config : Config) (profile : LearnerProfile) : Config :=
  if profile.preferred_question_types ≠ [] then
    let types := cfgGetStrs config "question_types" ["multiple_choice", "short_answer"]
    let weighted := types.foldl
      (fun acc t =>
        acc ++ List.replicate (if profile.preferred_question_types.contains t then 2 else 1) t)
      []
    dset config "question_types" (ConfigVal.strs weighted)
  else config

/-- `_identify_strengths_weaknesses`: sort topics by mastery descending
(stable), strengths = top three with mastery > 0.7, weaknesses = the last
three of the descending order (Python `[-3:]`) with mastery < 0.6. -/
def identify_strengths_weaknesses (profile : LearnerProfile) : LearnerProfile :=
  if profile.topics_mastery = [] then profile
  else
    let sorted_topics := profile.topics_mastery.mergeSort
      (fun a b => decide (b.2 ≤ a.2))
    { profile with
      strengths :=
        (sorted_topics.take 3).filterMap (fun p => if p.2 > 0.7 then some p.1 else none),
      weaknesses :=
        (sorted_topics.drop (sorted_topics.length - 3)).filterMap
          (fun p => if p.2 < 0.6 then some p.1 else none) }

/-- Least-squares slope of the points `(0, ys[0]), (1, ys[1]), ...`
(what `np.polyfit(x, y, 1)[0]` computes, exactly over `ℚ`). -/
def polyfitSlope (ys : List ℚ) : ℚ :=
  let n : ℚ := (ys.length : ℚ)
  let xs := (List.range ys.length).map (fun i => (i : ℚ))
  let xbar := xs.sum / n
  let ybar := ys.sum / n
  let num := ((xs.zip ys).map (fun p => (p.1 - xbar) * (p.2 - ybar))).sum
  let den := (xs.map (fun x => (x - xbar) * (x - xbar))).sum
  num / den

/-- `_calculate_learning_velocity`: slope of the per-session accuracy series,
0 when fewer than two recent sessions (or the key is absent). -/
def calculate_learning_velocity (history : LearningHistory) : ℚ :=
  match history.recent_sessions with
  | none => 0
  | some sessions =>
    if sessions.length < 2 then 0
    else
      let performances := sessions.map (fun s => s.accuracy)
      if performances.length < 2 then 0
      else polyfitSlope performances

/-- The exponential-moving-average fold shared by the topic-mastery and
bloom-performance updates: a key not yet present is set directly, a present
key is blended `w_old * old + w_new * new`. -/
def emaFold (w_old w_new : ℚ) (d : PyDict ℚ) (entries : PyDict ℚ) : PyDict ℚ :=
  entries.foldl
    (fun d p =>
      if dmem d p.1 then dset d p.1 (w_old * dgetD d p.1 0 + w_new * p.2)
      else dset d p.1 p.2)
    d

/-- `_update_profile_from_history`: fold every recent session into the
counters and the two EMA maps (weights 0.7/0.3), recompute learning velocity
when any questions have been answered, rederive strengths/weaknesses, and
stamp `last_session` with the current time. -/
def update_profile_from_history (now : ℤ) (profile : LearnerProfile)
    (history : LearningHistory) : LearnerProfile :=
  let profile :=
    match history.recent_sessions with
    | some sessions =>
      sessions.foldl
        (fun p s =>
          { p with
            total_questions_answered := p.total_questions_answered + s.questions_answered,
            correct_answers := p.correct_answers + s.correct_answers,
            topics_mastery := emaFold 0.7 0.3 p.topics_mastery s.topic_performance,
            bloom_performance := emaFold 0.7 0.3 p.bloom_performance s.bloom_performance })
        profile
    | none => profile
  let profile :=
    if profile.total_questions_answered > 0 then
      { profile with learning_velocity := calculate_learning_velocity history }
    else profile
  let profile := identify_strengths_weaknesses profile
  { profile with last_session := some now }

/-- The engine's per-learner store `self.learner_profiles`. -/
structure AdaptiveEngineState where
  learner_profiles : PyDict LearnerProfile := []
deriving DecidableEq

/-- `get_or_create_profile`. -/
def get_or_create_profile (s : AdaptiveEngineState) (user_id : String) :
    LearnerProfile × AdaptiveEngineState :=
  match dget s.learner_profiles user_id with
  | some p => (p, s)
  | none =>
    let p : LearnerProfile := { user_id := user_id }
    (p, ⟨dset s.learner_profiles user_id p⟩)

/-- `adjust_config`: look up (or create) the profile of
`learning_history.get('user_id', 'anonymous')`, update it from the history
(this mutates the stored profile), then run the four adjustment steps in
order.  Returns the adjusted config and the new store. -/
def adjust_config (now : ℤ) (s : AdaptiveEngineState) (config : Config)
    (learning_history : LearningHistory) : Config × AdaptiveEngineState :=
  let user_id := learning_history.user_id.getD "anonymous"
  let ps := get_or_create_profile s user_id
  let profile := update_profile_from_history now ps.1 learning_history
  let performance_level := calculate_performance_level profile
  let config := adjust_difficulty_distribution config performance_level profile
  let config := select_adaptive_topics now config profile
  let config := adjust_question_count config profile
  let config := select_question_types config profile
  (config, ⟨dset ps.2.learner_profiles user_id profile⟩)

/-- The `quiz_report` dict consumed by `update_user_model`, with the
`.get` defaults applied; `average_time` is an `Option` because the code
tests key presence. -/
structure QuizReportIn where
  total_questions : ℤ := 0
  correct_answers : ℤ := 0
  topic_scores : PyDict ℚ := []
  bloom_scores : PyDict ℚ := []
  average_time : Option ℚ := none
deriving DecidableEq

/-- The per-profile body of `update_user_model`: counters, EMA maps with
weights 0.6/0.4, timing EMA 0.7/0.3 (first observation adopted directly),
`last_session` stamp, strengths/weaknesses recomputation. -/
def update_user_model_profile (now : ℤ) (profile : LearnerProfile)
    (quiz_report : QuizReportIn) : LearnerProfile :=
  let profile :=
    { profile with
      total_questions_answered :=
        profile.total_questions_answered + quiz_report.total_questions,
      correct_answers := profile.correct_answers + quiz_report.correct_answers }
  let profile :=
    { profile with topics_mastery := emaFold 0.6 0.4 profile.topics_mastery quiz_report.topic_scores }
  let profile :=
    { profile with bloom_performance := emaFold 0.6 0.4 profile.bloom_performance quiz_report.bloom_scores }
  let profile :=
    match quiz_report.average_time with
    | some t =>
      if profile.average_time_per_question = 0 then
        { profile with average_time_per_question := t }
      else
        { profile with average_time_per_question :=
            0.7 * profile.average_time_per_question + 0.3 * t }
    | none => profile
  let profile := { profile with last_session := some now }
  identify_strengths_weaknesses profile

/-- `update_user_model` on the engine store. -/
def update_user_model (now : ℤ) (s : AdaptiveEngineState) (user_id : String)
    (quiz_report : QuizReportIn) : AdaptiveEngineState :=
  let ps := get_or_create_profile s user_id
  let profile := update_user_model_profile now ps.1 quiz_report
  ⟨dset ps.2.learner_profiles user_id profile⟩

/-- `datetime.isoformat` followed by `datetime.fromisoformat` reproduces the
original instant exactly; at the second granularity of this model the
serialization round-trip is therefore the identity on epoch seconds. -/
def isoformatRoundTrip (t : ℤ) : ℤ := t

/-- The record produced by `export_profile`. -/
structure ProfileExport where
  user_id : String
  total_questions : ℤ
  correct_answers : ℤ
  accuracy : ℚ
  topics_mastery : PyDict ℚ
  bloom_performance : PyDict ℚ
  strengths : List String
  weaknesses : List String
  last_session : Option ℤ
  learning_velocity : ℚ
  performance_level : PerformanceLevel
deriving DecidableEq

/-- `export_profile`: flatten the (possibly freshly created) profile into a
serializable record. -/
def export_profile (s : AdaptiveEngineState) (user_id : String) :
    ProfileExport × AdaptiveEngineState :=
  let ps := get_or_create_profile s user_id
  let profile := ps.1
  (⟨profile.user_id,
    profile.total_questions_answered,
    profile.correct_answers,
    (profile.correct_answers : ℚ) / (max 1 profile.total_questions_answered : ℤ),
    profile.topics_mastery,
    profile.bloom_performance,
    profile.strengths,
    profile.weaknesses,
    profile.last_session.map isoformatRoundTrip,
    profile.learning_velocity,
    calculate_performance_level profile⟩, ps.2)

/-- `import_profile`: rebuild a `LearnerProfile` from the saved record
(`average_time_per_question` and `preferred_question_types` are not part of
the record and fall back to the dataclass defaults) and store it under the
record's `user_id`. -/
def import_profile (s : AdaptiveEngineState) (profile_data : ProfileExport) :
    AdaptiveEngineState :=
  let profile : LearnerProfile :=
    { user_id := profile_data.user_id,
      total_questions_answered := profile_data.total_questions,
      correct_answers := profile_data.correct_answers,
      topics_mastery := profile_data.topics_mastery,
      bloom_performance := profile_data.bloom_performance,
      strengths := profile_data.strengths,
      weaknesses := profile_data.weaknesses,
      learning_velocity := profile_data.learning_velocity }
  let profile :=
    match profile_data.last_session with
    | some ls => { profile with last_session := some (isoformatRoundTrip ls) }
    | none => profile
  ⟨dset s.learner_profiles profile_data.user_id profile⟩

/-! ## `src/analytics_engine.py` -/

/-- One answer record, with the optional dict keys as `Option`s
(`is_correct` is read by truthiness, defaulting to false). -/
structure AnswerData where
  is_correct : Bool := false
  user_answer : Option String := none
  time_taken : Option ℚ := none
  topic : Option String := none
  bloom_level : Option String := none
  question_type : Option String := none
deriving DecidableEq

/-- One event of a learner's session stream. -/
structure Event where
  type : String
  timestamp : ℤ
  data : AnswerData := {}
deriving DecidableEq

/-- Per-question statistics (`self.question_analytics[qid]`), as initialized
by `track_answer` (`difficulty_rating` is never written and is omitted). -/
structure QuestionAnalytics where
  attempts : ℤ := 0
  correct : ℤ := 0
  average_time : ℚ := 0
  common_mistakes : PyDict ℤ := []
deriving DecidableEq

/-- The question-analytics part of `track_answer`: bump the attempt counter,
credit a correct answer or record the wrong answer text (a falsy — absent or
empty — answer is not recorded), then, when timing data is present, update
the running average with `n` the *new attempt count* (already incremented). -/
def track_answer_analytics (analytics : QuestionAnalytics)
    (answer_data : AnswerData) : QuestionAnalytics :=
  let analytics := { analytics with attempts := analytics.attempts + 1 }
  let analytics :=
    if answer_data.is_correct then { analytics with correct := analytics.correct + 1 }
    else
      match answer_data.user_answer with
      | some wrong_answer =>
        if wrong_answer ≠ "" then
          { analytics with common_mistakes :=
              (dset analytics.common_mistakes wrong_answer
                (dgetD analytics.common_mistakes wrong_answer 0 + 1)) }
        else analytics
      | none => analytics
  match answer_data.time_taken with
  | some time_taken =>
    let current_avg := analytics.average_time
    let n := analytics.attempts
    { analytics with average_time := (current_avg * ((n : ℚ) - 1) + time_taken) / (n : ℚ) }
  | none => analytics

/-- The analytics engine's mutable stores. -/
structure AnalyticsEngineState where
  sessions : PyDict (List Event) := []
  question_analytics : PyDict QuestionAnalytics := []
deriving DecidableEq

/-- `track_answer` on the engine state: update the question's analytics and
append an `answer_submitted` event to the learner's stream (`now` is the
clock value `datetime.utcnow()` reads). -/
def track_answer (now : ℤ) (s : AnalyticsEngineState) (user_id : String)
    (question_id : String) (answer_data : AnswerData) : AnalyticsEngineState :=
  let analytics := dgetD s.question_analytics question_id {}
  let analytics := track_answer_analytics analytics answer_data
  let event : Event := ⟨"answer_submitted", now, answer_data⟩
  { sessions := dset s.sessions user_id (dgetD s.sessions user_id [] ++ [event]),
    question_analytics := dset s.question_analytics question_id analytics }

/-- The pattern flags returned by `_identify_patterns`, all initialized to
false. -/
structure Patterns where
  rushing : Bool := false
  fatigue : Bool := false
  guessing : Bool := false
  consistent : Bool := false
  improving : Bool := false
  declining : Bool := false
deriving DecidableEq

/-- Count of correct answers in a list (`sum(1 for a in ... if a.get('is_correct'))`). -/
def countCorrect (answers : List AnswerData) : ℕ :=
  (answers.filter (fun a => a.is_correct)).length

/-- First-half accuracy used by the fatigue check:
accuracy of `answers[:len(answers)//2]`. -/
def firstHalfAccuracy (answers : List AnswerData) : ℚ :=
  let first_half := answers.take (answers.length / 2)
  (countCorrect first_half : ℚ) / (first_half.length : ℚ)

/-- Second-half accuracy used by the fatigue check:
accuracy of `answers[len(answers)//2:]`. -/
def secondHalfAccuracy (answers : List AnswerData) : ℚ :=
  let second_half := answers.drop (answers.length / 2)
  (countCorrect second_half : ℚ) / (second_half.length : ℚ)

/-- `_identify_patterns`. -/
def identify_patterns (answers : List AnswerData) : Patterns :=
  let patterns : Patterns := {}
  if answers = [] then patterns
  else
    let times := answers.filterMap (fun a => a.time_taken)
    let patterns :=
      if times ≠ [] ∧ times.sum / (times.length : ℚ) < 10 then
        { patterns with rushing := true }
      else patterns
    let patterns :=
      if answers.length ≥ 5 then
        let first_accuracy := firstHalfAccuracy answers
        let second_accuracy := secondHalfAccuracy answers
        if second_accuracy < first_accuracy - 0.2 then
          { patterns with fatigue := true, declining := true }
        else if second_accuracy > first_accuracy + 0.2 then
          { patterns with improving := true }
        else patterns
      else patterns
    let mc_answers := answers.filter (fun a => a.question_type == some "multiple_choice")
    let patterns :=
      if mc_answers ≠ [] ∧
          (let mc_accuracy := (countCorrect mc_answers : ℚ) / (mc_answers.length : ℚ)
           0.2 ≤ mc_accuracy ∧ mc_accuracy ≤ 0.3) then
        { patterns with guessing := true }
      else patterns
    if answers.length ≥ 3 then
      let correctness := answers.map (fun a => a.is_correct)
      let changes := ((correctness.zip correctness.tail).filter
        (fun p => p.1 ≠ p.2)).length
      if (changes : ℚ) ≤ (correctness.length : ℚ) * 0.3 then
        { patterns with consistent := true }
      else patterns
    else patterns

/-- `_calculate_streak`: longest run of answers whose correctness equals
`correct`. -/
def calculate_streak (answers : List AnswerData) (correct : Bool) : ℤ :=
  if answers = [] then 0
  else
    (answers.foldl
      (fun acc answer =>
        if answer.is_correct = correct then
          let current := acc.2 + 1
          (max acc.1 current, current)
        else (acc.1, 0))
      ((0 : ℤ), (0 : ℤ))).1

/-- `_calculate_trend`: rolling-window accuracies (window `min 3 (n / 3)`)
then least-squares slope; "improving" above 0.1, "declining" below -0.1,
"stable" otherwise; fewer than three answers gives "insufficient_data". -/
def calculate_trend (answers : List AnswerData) : String :=
  if answers.length < 3 then "insufficient_data"
  else
    let window_size := min 3 (answers.length / 3)
    let accuracies := (List.range (answers.length - window_size + 1)).map
      (fun i =>
        (countCorrect ((answers.drop i).take window_size) : ℚ) / (window_size : ℚ))
    if accuracies = [] then "stable"
    else
      let slope := polyfitSlope accuracies
      if slope > 0.1 then "improving"
      else if slope < -0.1 then "declining"
      else "stable"

/-- `_generate_insights`, applied to the values the report holds at its call
site (`average_time` via `report.get('average_time', 0)`). -/
def generate_insights (overall_score : ℚ) (topic_scores : PyDict ℚ)
    (bloom_scores : PyDict ℚ) (patterns : Patterns)
    (average_time : Option ℚ) : List String :=
  let insights : List String := []
  let insights := insights ++
    (if overall_score ≥ 0.9 then ["Excellent performance! You have mastered this material."]
     else if overall_score ≥ 0.7 then ["Good understanding. Focus on the topics you missed."]
     else if overall_score ≥ 0.5 then ["Developing understanding. More practice recommended."]
     else ["Significant gaps identified. Consider reviewing the material."])
  let weak_topics := (topic_scores.filter (fun p => p.2 < 0.6)).map (fun p => p.1)
  let insights := insights ++
    (if weak_topics ≠ [] then
      ["Focus on: " ++ String.intercalate ", " (weak_topics.take 3)]
     else [])
  let strong_topics := (topic_scores.filter (fun p => p.2 ≥ 0.8)).map (fun p => p.1)
  let insights := insights ++
    (if strong_topics ≠ [] then
      ["Strong in: " ++ String.intercalate ", " (strong_topics.take 3)]
     else [])
  let insights := insights ++
    (if dgetD bloom_scores "remember" 1 < 0.6 then
      ["Strengthen factual knowledge and memorization."] else [])
  let insights := insights ++
    (if dgetD bloom_scores "understand" 1 < 0.6 then
      ["Work on comprehension and explanation skills."] else [])
  let insights := insights ++
    (if dgetD bloom_scores "apply" 1 < 0.6 then
      ["Practice applying concepts to new situations."] else [])
  let insights := insights ++
    (if dgetD bloom_scores "analyze" 1 < 0.6 then
      ["Develop analytical and critical thinking skills."] else [])
  let insights := insights ++
    (if patterns.rushing then ["Take more time to read questions carefully."] else [])
  let insights := insights ++
    (if patterns.fatigue then ["Consider taking breaks during longer quizzes."] else [])
  let insights := insights ++
    (if patterns.guessing then ["Review the material before attempting quizzes."] else [])
  let insights := insights ++
    (if patterns.improving then ["Great progress! You are warming up nicely."] else [])
  let avg_time := average_time.getD 0
  let insights := insights ++
    (if avg_time > 120 then ["You are being thorough, but try to improve speed."]
     else if avg_time < 20 then ["Consider spending more time on each question."]
     else [])
  insights

/-- The `defaultdict(lambda: {'correct': 0, 'total': 0})` tallies of
`generate_report` / `_process_session`: fold the answers, keyed by `key`,
keeping first-occurrence order. -/
def tallyBy (answers : List AnswerData) (key : AnswerData → String) :
    PyDict (ℤ × ℤ) :=
  answers.foldl
    (fun d a =>
      let k := key a
      let cur := dgetD d k (0, 0)
      dset d k (cur.1 + (if a.is_correct then 1 else 0), cur.2 + 1))
    []

/-- `{k: correct/total for ...}` (no zero guard: every tallied key has
`total ≥ 1`). -/
def tallyRatios (d : PyDict (ℤ × ℤ)) : PyDict ℚ :=
  d.map (fun p => (p.1, (p.2.1 : ℚ) / (p.2.2 : ℚ)))

/-- `{k: correct/total if total > 0 else 0 for ...}`. -/
def tallyRatiosGuarded (d : PyDict (ℤ × ℤ)) : PyDict ℚ :=
  d.map (fun p => (p.1, if p.2.2 > 0 then (p.2.1 : ℚ) / (p.2.2 : ℚ) else 0))

/-- The report dict built by `generate_report`.  `average_time` and
`time_per_correct` are `Option`s: the keys are written only when `time_taken`
is truthy and the answer list is non-empty.  (The wall-clock `timestamp`
echo field is omitted; the `answers` echo field is kept.) -/
structure QuizReport where
  quiz_id : String
  total_questions : ℤ
  time_taken : ℤ
  answers : List AnswerData
  correct_answers : ℤ
  incorrect_answers : ℤ
  overall_score : ℚ
  percentage : ℚ
  average_time : Option ℚ
  time_per_correct : Option ℚ
  topic_scores : PyDict ℚ
  bloom_scores : PyDict ℚ
  type_scores : PyDict ℚ
  patterns : Patterns
  insights : List String
  longest_correct_streak : ℤ
  longest_incorrect_streak : ℤ
  performance_trend : String
deriving DecidableEq

/-- `generate_report` (the pure report computation; the engine also stores
the result in `self.quiz_results`). -/
def generate_report (quiz_id : String) (answers : List AnswerData)
    (time_taken : ℤ) : QuizReport :=
  let correct_answers : ℤ := (countCorrect answers : ℤ)
  let overall_score : ℚ :=
    if answers ≠ [] then (correct_answers : ℚ) / (answers.length : ℚ) else 0
  let timed := time_taken ≠ 0 ∧ answers.length ≠ 0
  let average_time : Option ℚ :=
    if timed then some ((time_taken : ℚ) / (answers.length : ℚ)) else none
  let time_per_correct : Option ℚ :=
    if timed then
      some (if correct_answers ≠ 0 then (time_taken : ℚ) / (correct_answers : ℚ) else 0)
    else none
  let topic_scores := tallyRatios (tallyBy answers (fun a => a.topic.getD "General"))
  let bloom_scores :=
    tallyRatiosGuarded (tallyBy answers (fun a => a.bloom_level.getD "understand"))
  let type_scores :=
    tallyRatiosGuarded (tallyBy answers (fun a => a.question_type.getD "unknown"))
  let patterns := identify_patterns answers
  let insights := generate_insights overall_score topic_scores bloom_scores
    patterns average_time
  { quiz_id := quiz_id,
    total_questions := (answers.length : ℤ),
    time_taken := time_taken,
    answers := answers,
    correct_answers := correct_answers,
    incorrect_answers := (answers.length : ℤ) - correct_answers,
    overall_score := overall_score,
    percentage := overall_score * 100,
    average_time := average_time,
    time_per_correct := time_per_correct,
    topic_scores := topic_scores,
    bloom_scores := bloom_scores,
    type_scores := type_scores,
    patterns := patterns,
    insights := insights,
    longest_correct_streak := calculate_streak answers true,
    longest_incorrect_streak := calculate_streak answers false,
    performance_trend := calculate_trend answers }

/-- A session summary produced by `_process_session`. -/
structure SessionSummary where
  start_time : ℤ
  end_time : ℤ
  questions_answered : ℤ
  correct_answers : ℤ
  topic_performance : PyDict ℚ
  bloom_performance : PyDict ℚ
  accuracy : ℚ
deriving DecidableEq

/-- `_process_session` (only ever called on a non-empty event list; the 0
fallbacks for the first/last timestamp are unreachable there). -/
def process_session (events : List Event) : SessionSummary :=
  let answered := events.filter (fun e => e.type == "answer_submitted")
  let answers := answered.map (fun e => e.data)
  let questions_answered : ℤ := (answers.length : ℤ)
  let correct_answers : ℤ := (countCorrect answers : ℤ)
  { start_time := (events.head?.map (fun e => e.timestamp)).getD 0,
    end_time := (events.getLast?.map (fun e => e.timestamp)).getD 0,
    questions_answered := questions_answered,
    correct_answers := correct_answers,
    topic_performance :=
      tallyRatiosGuarded (tallyBy answers (fun a => a.topic.getD "General")),
    bloom_performance :=
      tallyRatiosGuarded (tallyBy answers (fun a => a.bloom_level.getD "understand")),
    accuracy :=
      if questions_answered > 0 then (correct_answers : ℚ) / (questions_answered : ℚ)
      else 0 }

/-- The session-grouping scan of `get_user_history`: a new group is opened
when the `.seconds` component of the gap `timedelta` exceeds 3600 (note: the
`.seconds` component, not the total gap — whole days are discarded).  Each
closed non-empty group is summarized as it is appended. -/
def group_sessions (user_sessions : List Event) : List SessionSummary :=
  let scan := user_sessions.foldl
    (fun (acc : List SessionSummary × List Event × Option ℤ) event =>
      let sessions := acc.1
      let current_session := acc.2.1
      let last_timestamp := acc.2.2
      let split : Bool :=
        match last_timestamp with
        | some lt => decide (pyTimedeltaSeconds (event.timestamp - lt) > 3600)
        | none => false
      if split then
        let sessions :=
          if current_session ≠ [] then sessions ++ [process_session current_session]
          else sessions
        (sessions, [event], some event.timestamp)
      else (sessions, current_session ++ [event], some event.timestamp))
    ([], [], none)
  if scan.2.1 ≠ [] then scan.1 ++ [process_session scan.2.1] else scan.1

/-- The value returned by `get_user_history`. -/
structure UserHistoryOut where
  user_id : String
  recent_sessions : List SessionSummary
deriving DecidableEq

/-- `get_user_history`: group the learner's event stream into sessions and
return the summaries most-recent-last, capped at the last 10
(`sessions[-10:]`). -/
def get_user_history (s : AnalyticsEngineState) (user_id : String) :
    UserHistoryOut :=
  match dget s.sessions user_id with
  | none => ⟨user_id, []⟩
  | some user_sessions =>
    let sessions := group_sessions user_sessions
    ⟨user_id, sessions.drop (sessions.length - 10)⟩

/-! ## Concrete instances used by the claim checks -/

/-- An analytics store holding two `answer_submitted` events of one learner,
exactly 24 hours (86400 seconds) apart. -/
def dayGapState : AnalyticsEngineState :=
  { sessions := [("u", [⟨"answer_submitted", 0, {}⟩, ⟨"answer_submitted", 86400, {}⟩])] }

/-- A learning history whose two recent sessions observe the same topic at
performance 0.9 and then 0.1. -/
def twoSessionHistory : LearningHistory :=
  { user_id := some "u",
    recent_sessions := some
      [{ topic_performance := [("algebra", 0.9)] },
       { topic_performance := [("algebra", 0.1)] }] }

/-- A profile that is both slow (average time > 120s) and improving
(learning velocity > 0.1). -/
def slowImprovingProfile : LearnerProfile :=
  { user_id := "u", average_time_per_question := 150, learning_velocity := 0.2 }

/-- A profile whose only bloom-performance entry is a weak `remember`. -/
def weakRememberProfile : LearnerProfile :=
  { user_id := "u", bloom_performance := [("remember", 0.3)] }

/-- A populated stored profile for the export/import round trip. -/
def storedProfile : LearnerProfile :=
  { user_id := "u", total_questions_answered := 10, correct_answers := 7,
    topics_mastery := [("algebra", 0.75)], bloom_performance := [("remember", 0.5)],
    strengths := ["algebra"], last_session := some 1700000000,
    learning_velocity := 0.05 }

/-- An engine store holding `storedProfile` under its user id. -/
def storedState : AdaptiveEngineState := ⟨[("u", storedProfile)]⟩

/-- The correctness sequence true,true,true,false,false,false. -/
def threeUpThreeDown : List AnswerData :=
  [{ is_correct := true }, { is_correct := true }, { is_correct := true },
   { is_correct := false }, { is_correct := false }, { is_correct := false }]

/-- A session record satisfying the per-session soundness bounds. -/
def soundSession : SessionData :=
  { questions_answered := 4, correct_answers := 3,
    topic_performance := [("algebra", 0.75)], bloom_performance := [("remember", 1)] }

/-- A history carrying `soundSession`. -/
def soundHistory : LearningHistory := ⟨some "u", some [soundSession]⟩

/-- A quiz report satisfying the soundness bounds. -/
def soundReport : QuizReportIn :=
  { total_questions := 5, correct_answers := 2, topic_scores := [("algebra", 0.4)],
    bloom_scores := [("remember", 0)], average_time := some 42 }

/-! ## Soundness predicates (the bounds hypothesised by the invariants) -/

/-- The profile invariant of the spec: the correct-answer counter never
exceeds the total counter, and every mastery and bloom-performance value
lies in `[0, 1]`. -/
def ProfileSound (p : LearnerProfile) : Prop :=
  p.correct_answers ≤ p.total_questions_answered ∧
  (∀ q ∈ p.topics_mastery, 0 ≤ q.2 ∧ q.2 ≤ 1) ∧
  (∀ q ∈ p.bloom_performance, 0 ≤ q.2 ∧ q.2 ≤ 1)

/-- Per-session bounds: correct count at most questions answered, and all
performance values in `[0, 1]`. -/
def SessionSound (s : SessionData) : Prop :=
  s.correct_answers ≤ s.questions_answered ∧
  (∀ q ∈ s.topic_performance, 0 ≤ q.2 ∧ q.2 ≤ 1) ∧
  (∀ q ∈ s.bloom_performance, 0 ≤ q.2 ∧ q.2 ≤ 1)

/-- Per-report bounds: correct count at most total questions, and all score
values in `[0, 1]`. -/
def ReportSound (r : QuizReportIn) : Prop :=
  r.correct_answers ≤ r.total_questions ∧
  (∀ q ∈ r.topic_scores, 0 ≤ q.2 ∧ q.2 ≤ 1) ∧
  (∀ q ∈ r.bloom_scores, 0 ≤ q.2 ∧ q.2 ≤ 1)

/-! ## Helper lemmas about the dict model -/

theorem dget_cons {α : Type} (p : String × α) (d : PyDict α) (k : String) :
    dget (p :: d) k = if p.1 == k then some p.2 else dget d k := by
  by_cases hq : (p.1 == k) = true
  · simp [dget, List.find?_cons_of_pos, hq]
  · simp [dget, List.find?_cons_of_neg, hq]

theorem dmem_cons {α : Type} (p : String × α) (d : PyDict α) (k : String) :
    dmem (p :: d) k = ((p.1 == k) || dmem d k) := by
  simp [dmem]

theorem dmem_eq_isSome_dget {α : Type} (d : PyDict α) (k : String) :
    dmem d k = (dget d k).isSome := by
  induction d with
  | nil => rfl
  | cons p d ih =>
    rw [dmem_cons, dget_cons]
    by_cases hq : (p.1 == k) = true
    · simp [hq]
    · simp only [Bool.not_eq_true] at hq
      simp [hq, ih]

theorem dget_map_subst_self {α : Type} (d : PyDict α) (k : String) (v : α)
    (h : dmem d k = true) :
    dget (d.map (fun p => if p.1 == k then (k, v) else p)) k = some v := by
  induction d with
  | nil => simp [dmem] at h
  | cons p d ih =>
    rw [dmem_cons, Bool.or_eq_true] at h
    rw [List.map_cons]
    by_cases hp : (p.1 == k) = true
    · rw [if_pos hp, dget_cons]
      simp
    · rw [if_neg hp, dget_cons, if_neg hp]
      rcases h with h | h
      · exact absurd h hp
      · exact ih h

theorem dget_map_subst_ne {α : Type} (d : PyDict α) (k k' : String) (v : α)
    (h : k' ≠ k) :
    dget (d.map (fun p => if p.1 == k then (k, v) else p)) k' = dget d k' := by
  have hkk' : ¬((k == k') = true) := by
    simp only [beq_iff_eq]
    exact fun hk => h hk.symm
  induction d with
  | nil => rfl
  | cons p d ih =>
    rw [List.map_cons]
    by_cases hp : (p.1 == k) = true
    · have hpk : p.1 = k := by simpa using hp
      have hpk' : ¬((p.1 == k') = true) := by rw [hpk]; exact hkk'
      rw [if_pos hp, dget_cons, dget_cons, if_neg hkk', if_neg hpk']
      exact ih
    · rw [if_neg hp, dget_cons, dget_cons]
      by_cases hq : (p.1 == k') = true
      · rw [if_pos hq, if_pos hq]
      · rw [if_neg hq, if_neg hq]
        exact ih

theorem dget_append_single_self {α : Type} (d : PyDict α) (k : String) (v : α)
    (h : dmem d k = false) : dget (d ++ [(k, v)]) k = some v := by
  induction d with
  | nil => simp [dget_cons]
  | cons p d ih =>
    rw [dmem_cons, Bool.or_eq_false_iff] at h
    have hp : ¬((p.1 == k) = true) := by simp [h.1]
    rw [List.cons_append, dget_cons, if_neg hp]
    exact ih h.2

theorem dget_append_single_ne {α : Type} (d : PyDict α) (k k' : String) (v : α)
    (h : k' ≠ k) : dget (d ++ [(k, v)]) k' = dget d k' := by
  have hkk' : ¬((k == k') = true) := by
    simp only [beq_iff_eq]
    exact fun hk => h hk.symm
  induction d with
  | nil =>
    rw [List.nil_append, dget_cons, if_neg hkk']
  | cons p d ih =>
    rw [List.cons_append, dget_cons, dget_cons]
    by_cases hq : (p.1 == k') = true
    · rw [if_pos hq, if_pos hq]
    · rw [if_neg hq, if_neg hq]
      exact ih

theorem dget_dset_self {α : Type} (d : PyDict α) (k : String) (v : α) :
    dget (dset d k v) k = some v := by
  unfold dset
  by_cases hm : dmem d k = true
  · rw [if_pos hm]
    exact dget_map_subst_self d k v hm
  · rw [if_neg hm]
    exact dget_append_single_self d k v (by simpa using hm)

theorem dget_dset_ne {α : Type} (d : PyDict α) (k k' : String) (v : α)
    (h : k' ≠ k) : dget (dset d k v) k' = dget d k' := by
  unfold dset
  by_cases hm : dmem d k = true
  · rw [if_pos hm]
    exact dget_map_subst_ne d k k' v h
  · rw [if_neg hm]
    exact dget_append_single_ne d k k' v h

theorem dmem_dset_self {α : Type} (d : PyDict α) (k : String) (v : α) :
    dmem (dset d k v) k = true := by
  rw [dmem_eq_isSome_dget, dget_dset_self]
  rfl

theorem dmem_dset_of_dmem {α : Type} (d : PyDict α) (k k' : String) (v : α)
    (h : dmem d k' = true) : dmem (dset d k v) k' = true := by
  by_cases hk : k' = k
  · rw [hk]
    exact dmem_dset_self d k v
  · rw [dmem_eq_isSome_dget, dget_dset_ne d k k' v hk]
    rw [dmem_eq_isSome_dget] at h
    exact h

theorem dkeys_dset_subset {α : Type} (d : PyDict α) (k : String) (v : α) :
    dkeys (dset d k v) ⊆ dkeys d ++ [k] := by
  unfold dset
  by_cases hm : dmem d k = true
  · rw [if_pos hm]
    intro x hx
    simp only [dkeys, List.mem_map] at hx
    obtain ⟨p, hp, hpx⟩ := hx
    obtain ⟨a, ha, hap⟩ := hp
    by_cases hq : (a.1 == k) = true
    · rw [if_pos hq] at hap
      rw [← hap] at hpx
      exact List.mem_append.mpr (Or.inr (by simp [← hpx]))
    · rw [if_neg hq] at hap
      rw [← hap] at hpx
      refine List.mem_append.mpr (Or.inl ?_)
      simp only [dkeys, List.mem_map]
      exact ⟨a, ha, hpx⟩
  · rw [if_neg hm]
    intro x hx
    simp only [dkeys, List.map_append] at hx
    exact hx

theorem forall_val_dset {α : Type} (P : α → Prop) (d : PyDict α) (k : String)
    (v : α) (hd : ∀ p ∈ d, P p.2) (hv : P v) :
    ∀ p ∈ dset d k v, P p.2 := by
  unfold dset
  by_cases hm : dmem d k = true
  · rw [if_pos hm]
    intro p hp
    obtain ⟨q, hq, hqp⟩ := List.mem_map.mp hp
    by_cases hqk : (q.1 == k) = true
    · rw [if_pos hqk] at hqp
      rw [← hqp]
      exact hv
    · rw [if_neg hqk] at hqp
      rw [← hqp]
      exact hd q hq
  · rw [if_neg hm]
    intro p hp
    rcases List.mem_append.mp hp with hp | hp
    · exact hd p hp
    · simp only [List.mem_singleton] at hp
      rw [hp]
      exact hv

theorem val_dgetD {α : Type} (P : α → Prop) (d : PyDict α) (k : String)
    (v0 : α) (hd : ∀ p ∈ d, P p.2) (h : dmem d k = true) :
    P (dgetD d k v0) := by
  induction d with
  | nil => simp [dmem] at h
  | cons p d ih =>
    rw [dmem_cons, Bool.or_eq_true] at h
    by_cases hp : (p.1 == k) = true
    · simp only [dgetD, dget_cons, hp, if_true, Option.getD_some]
      exact hd p (List.mem_cons_self p d)
    · simp only [dgetD, dget_cons, hp, if_false]
      rcases h with h | h
      · exact absurd h hp
      · exact ih (fun q hq => hd q (List.mem_cons_of_mem p hq)) h

/-! ## Projection-through-ite helper lemmas -/

theorem ite_fatigue (c : Prop) [Decidable c] (a b : Patterns) :
    (if c then a else b).fatigue = if c then a.fatigue else b.fatigue := by
  by_cases h : c <;> simp [h]

theorem ite_declining (c : Prop) [Decidable c] (a b : Patterns) :
    (if c then a else b).declining = if c then a.declining else b.declining := by
  by_cases h : c <;> simp [h]

theorem ite_improving (c : Prop) [Decidable c] (a b : Patterns) :
    (if c then a else b).improving = if c then a.improving else b.improving := by
  by_cases h : c <;> simp [h]

theorem ite_attempts (c : Prop) [Decidable c] (a b : QuestionAnalytics) :
    (if c then a else b).attempts = if c then a.attempts else b.attempts := by
  by_cases h : c <;> simp [h]

theorem ite_average_time (c : Prop) [Decidable c] (a b : QuestionAnalytics) :
    (if c then a else b).average_time = if c then a.average_time else b.average_time := by
  by_cases h : c <;> simp [h]

theorem mem_dkeys_of_dmem {α : Type} (d : PyDict α) (k : String)
    (h : dmem d k = true) : k ∈ dkeys d := by
  simp only [dmem, List.any_eq_true] at h
  obtain ⟨p, hp, hk⟩ := h
  simp only [beq_iff_eq] at hk
  simp only [dkeys, List.mem_map]
  exact ⟨p, hp, hk⟩

theorem dkeys_dset_subset_of {α : Type} (d : PyDict α) (k : String) (v : α)
    (S : List String) (hd : dkeys d ⊆ S) (hk : k ∈ S) :
    dkeys (dset d k v) ⊆ S := by
  intro x hx
  rcases List.mem_append.mp (dkeys_dset_subset d k v hx) with h | h
  · exact hd h
  · simp only [List.mem_singleton] at h
    rw [h]
    exact hk

/-! ## Key-frame lemmas for the config pipeline -/

theorem adjust_difficulty_distribution_keys (config : Config)
    (level : PerformanceLevel) (profile : LearnerProfile) (S : List String)
    (hc : dkeys config ⊆ S) (hk : "difficulty_distribution" ∈ S) :
    dkeys (adjust_difficulty_distribution config level profile) ⊆ S := by
  unfold adjust_difficulty_distribution
  exact dkeys_dset_subset_of _ _ _ S hc hk

theorem select_adaptive_topics_keys (now : ℤ) (config : Config)
    (profile : LearnerProfile) (S : List String)
    (hc : dkeys config ⊆ S) (hk : "focus_topics" ∈ S) :
    dkeys (select_adaptive_topics now config profile) ⊆ S := by
  unfold select_adaptive_topics
  exact dkeys_dset_subset_of _ _ _ S hc hk

theorem adjust_question_count_keys (config : Config) (profile : LearnerProfile)
    (S : List String) (hc : dkeys config ⊆ S) (hk : "num_questions" ∈ S) :
    dkeys (adjust_question_count config profile) ⊆ S := by
  unfold adjust_question_count
  split_ifs <;>
    first
      | exact hc
      | exact dkeys_dset_subset_of _ _ _ S hc hk
      | exact dkeys_dset_subset_of _ _ _ S (dkeys_dset_subset_of _ _ _ S hc hk) hk

theorem select_question_types_keys (config : Config) (profile : LearnerProfile)
    (S : List String) (hc : dkeys config ⊆ S) (hk : "question_types" ∈ S) :
    dkeys (select_question_types config profile) ⊆ S := by
  unfold select_question_types
  split_ifs <;>
    first
      | exact hc
      | exact dkeys_dset_subset_of _ _ _ S hc hk

theorem select_adaptive_topics_dmem (now : ℤ) (config : Config)
    (profile : LearnerProfile) (k : String) (h : dmem config k = true) :
    dmem (select_adaptive_topics now config profile) k = true := by
  unfold select_adaptive_topics
  exact dmem_dset_of_dmem _ _ _ _ h

theorem adjust_question_count_dmem (config : Config) (profile : LearnerProfile)
    (k : String) (h : dmem config k = true) :
    dmem (adjust_question_count config profile) k = true := by
  unfold adjust_question_count
  split_ifs <;>
    first
      | exact h
      | exact dmem_dset_of_dmem _ _ _ _ h
      | exact dmem_dset_of_dmem _ _ _ _ (dmem_dset_of_dmem _ _ _ _ h)

theorem select_question_types_dmem (config : Config) (profile : LearnerProfile)
    (k : String) (h : dmem config k = true) :
    dmem (select_question_types config profile) k = true := by
  unfold select_question_types
  split_ifs <;>
    first
      | exact h
      | exact dmem_dset_of_dmem _ _ _ _ h

/-! ## Soundness-preservation helper lemmas -/

theorem emaFold_bounds (w_old w_new : ℚ) (hw0 : 0 ≤ w_old) (hw1 : 0 ≤ w_new)
    (hw : w_old + w_new = 1) (d entries : PyDict ℚ)
    (hd : ∀ q ∈ d, 0 ≤ q.2 ∧ q.2 ≤ 1)
    (he : ∀ q ∈ entries, 0 ≤ q.2 ∧ q.2 ≤ 1) :
    ∀ q ∈ emaFold w_old w_new d entries, 0 ≤ q.2 ∧ q.2 ≤ 1 := by
  induction entries generalizing d with
  | nil => simpa [emaFold] using hd
  | cons p rest ih =>
    have hp : 0 ≤ p.2 ∧ p.2 ≤ 1 := he p (List.mem_cons_self p rest)
    have hrest : ∀ q ∈ rest, 0 ≤ q.2 ∧ q.2 ≤ 1 :=
      fun q hq => he q (List.mem_cons_of_mem p hq)
    have step : ∀ q ∈ (if dmem d p.1 then
        dset d p.1 (w_old * dgetD d p.1 0 + w_new * p.2) else dset d p.1 p.2),
        0 ≤ q.2 ∧ q.2 ≤ 1 := by
      by_cases hm : dmem d p.1 = true
      · rw [if_pos hm]
        have hold := val_dgetD (fun v => 0 ≤ v ∧ v ≤ 1) d p.1 0 hd hm
        refine forall_val_dset (fun v => 0 ≤ v ∧ v ≤ 1) d p.1 _ hd ⟨?_, ?_⟩
        · exact add_nonneg (mul_nonneg hw0 hold.1) (mul_nonneg hw1 hp.1)
        · nlinarith [hold.1, hold.2, hp.1, hp.2]
      · rw [if_neg hm]
        exact forall_val_dset (fun v => 0 ≤ v ∧ v ≤ 1) d p.1 _ hd hp
    exact ih _ step hrest

theorem sound_set_velocity (p : LearnerProfile) (v : ℚ) (h : ProfileSound p) :
    ProfileSound { p with learning_velocity := v } := by
  unfold ProfileSound at *
  simpa using h

theorem sound_velocity_ite (c : Prop) [Decidable c] (p : LearnerProfile)
    (v : ℚ) (h : ProfileSound p) :
    ProfileSound (if c then { p with learning_velocity := v } else p) := by
  split_ifs
  · exact sound_set_velocity p v h
  · exact h

theorem sound_set_last (p : LearnerProfile) (t : Option ℤ)
    (h : ProfileSound p) : ProfileSound { p with last_session := t } := by
  unfold ProfileSound at *
  simpa using h

theorem sound_set_avg (p : LearnerProfile) (v : ℚ) (h : ProfileSound p) :
    ProfileSound { p with average_time_per_question := v } := by
  unfold ProfileSound at *
  simpa using h

theorem identify_sw_sound (p : LearnerProfile) (h : ProfileSound p) :
    ProfileSound (identify_strengths_weaknesses p) := by
  unfold identify_strengths_weaknesses
  split_ifs
  · exact h
  · unfold ProfileSound at *
    simpa using h

theorem session_step_sound (p : LearnerProfile) (s : SessionData)
    (hp : ProfileSound p) (hs : SessionSound s) :
    ProfileSound
      { p with
        total_questions_answered :=
          p.total_questions_answered + s.questions_answered,
        correct_answers := p.correct_answers + s.correct_answers,
        topics_mastery := emaFold 0.7 0.3 p.topics_mastery s.topic_performance,
        bloom_performance :=
          emaFold 0.7 0.3 p.bloom_performance s.bloom_performance } := by
  obtain ⟨h1, h2, h3⟩ := hp
  obtain ⟨g1, g2, g3⟩ := hs
  refine ⟨by simpa using add_le_add h1 g1, ?_, ?_⟩
  · simpa using emaFold_bounds 0.7 0.3 (by norm_num) (by norm_num) (by norm_num)
      _ _ h2 g2
  · simpa using emaFold_bounds 0.7 0.3 (by norm_num) (by norm_num) (by norm_num)
      _ _ h3 g3

theorem sound_update_topics (p : LearnerProfile) (entries : PyDict ℚ)
    (w1 w2 : ℚ) (hw1 : 0 ≤ w1) (hw2 : 0 ≤ w2) (hw : w1 + w2 = 1)
    (h : ProfileSound p) (he : ∀ q ∈ entries, 0 ≤ q.2 ∧ q.2 ≤ 1) :
    ProfileSound { p with topics_mastery := emaFold w1 w2 p.topics_mastery entries } := by
  obtain ⟨h1, h2, h3⟩ := h
  exact ⟨by simpa using h1,
    by simpa using emaFold_bounds w1 w2 hw1 hw2 hw _ _ h2 he,
    by simpa using h3⟩

theorem sound_update_bloom (p : LearnerProfile) (entries : PyDict ℚ)
    (w1 w2 : ℚ) (hw1 : 0 ≤ w1) (hw2 : 0 ≤ w2) (hw : w1 + w2 = 1)
    (h : ProfileSound p) (he : ∀ q ∈ entries, 0 ≤ q.2 ∧ q.2 ≤ 1) :
    ProfileSound { p with bloom_performance := emaFold w1 w2 p.bloom_performance entries } := by
  obtain ⟨h1, h2, h3⟩ := h
  exact ⟨by simpa using h1, by simpa using h2,
    by simpa using emaFold_bounds w1 w2 hw1 hw2 hw _ _ h3 he⟩

theorem sound_counters_step (p : LearnerProfile) (tq ca : ℤ)
    (hle : ca ≤ tq) (h : ProfileSound p) :
    ProfileSound
      { p with
        total_questions_answered := p.total_questions_answered + tq,
        correct_answers := p.correct_answers + ca } := by
  obtain ⟨h1, h2, h3⟩ := h
  exact ⟨by simpa using add_le_add h1 hle, by simpa using h2, by simpa using h3⟩

theorem sound_avg_stage (p : LearnerProfile) (x : Option ℚ)
    (h : ProfileSound p) :
    ProfileSound (match x with
      | some t =>
        if p.average_time_per_question = 0 then
          { p with average_time_per_question := t }
        else
          { p with average_time_per_question :=
              0.7 * p.average_time_per_question + 0.3 * t }
      | none => p) := by
  cases x with
  | none => exact h
  | some t =>
    split_ifs <;> exact sound_set_avg _ _ h

/-! ## Claim checks -/

/-- C1: the claim says a new session starts exactly when the gap between
consecutive event timestamps exceeds 3600 seconds.  The code computes the
gap with `timedelta.seconds`, which discards whole days: two events 86400
seconds (24 hours) apart are kept in ONE session, although the gap exceeds
3600 seconds, contradicting the code's own comment ("New session if more
than 1 hour gap").  This theorem evaluates the code at the failing input;
a 3601-second gap, by contrast, does split. -/
theorem C1_session_gap_day_bug :
    (get_user_history dayGapState "u").recent_sessions.length = 1 ∧
    pyTimedeltaSeconds (86400 - 0) = 0 ∧
    (get_user_history
      ⟨[("u", [⟨"answer_submitted", 0, {}⟩, ⟨"answer_submitted", 3601, {}⟩])], []⟩
      "u").recent_sessions.length = 2 := by
  refine ⟨?_, by decide, ?_⟩ <;>
    simp [get_user_history, dayGapState, group_sessions, dget, List.find?,
      pyTimedeltaSeconds]

/-- C6: for the STRUGGLING base distribution and bloom performance
`{remember: 0.3}` (< 0.5), `remember`'s weight 0.4 is multiplied by 1.2 and
the whole distribution renormalized by the new sum 1.08; the result sums to
1 and `remember`'s share strictly exceeds its pre-boost share 0.4 — for any
caller configuration. -/
theorem C6_difficulty_boost_renormalized (config : Config) :
    cfgGetDist (adjust_difficulty_distribution config PerformanceLevel.struggling
        weakRememberProfile) "difficulty_distribution" =
      [("remember", 0.4 * 1.2 / 1.08), ("understand", 0.4 / 1.08),
       ("apply", 0.15 / 1.08), ("analyze", 0.05 / 1.08)] ∧
    ((cfgGetDist (adjust_difficulty_distribution config PerformanceLevel.struggling
        weakRememberProfile) "difficulty_distribution").map (fun p => p.2)).sum = 1 ∧
    dgetD (cfgGetDist (adjust_difficulty_distribution config PerformanceLevel.struggling
        weakRememberProfile) "difficulty_distribution") "remember" 0 > 0.4 := by
  have h : cfgGetDist (adjust_difficulty_distribution config PerformanceLevel.struggling
      weakRememberProfile) "difficulty_distribution" =
      [("remember", 0.4 * 1.2 / 1.08), ("understand", 0.4 / 1.08),
       ("apply", 0.15 / 1.08), ("analyze", 0.05 / 1.08)] := by
    unfold adjust_difficulty_distribution cfgGetDist
    rw [dget_dset_self]
    norm_num [weakRememberProfile, distributions, dmem, dgetD, dget, dset,
      List.find?]
    split_ifs <;> simp_all
    all_goals norm_num [div_eq_iff]
  refine ⟨h, ?_, ?_⟩ <;> rw [h] <;> norm_num [dgetD, dget, List.find?]

/-- C10: `generate_report` on the empty answer list is total and returns
zero counts, zero score, zero streaks, "insufficient_data" trend, all
pattern flags false, and leaves the `average_time` / `time_per_correct`
keys absent — for every quiz id and `time_taken` value. -/
theorem C10_report_total_on_empty (quiz_id : String) (time_taken : ℤ) :
    (generate_report quiz_id [] time_taken).total_questions = 0 ∧
    (generate_report quiz_id [] time_taken).correct_answers = 0 ∧
    (generate_report quiz_id [] time_taken).overall_score = 0 ∧
    (generate_report quiz_id [] time_taken).longest_correct_streak = 0 ∧
    (generate_report quiz_id [] time_taken).longest_incorrect_streak = 0 ∧
    (generate_report quiz_id [] time_taken).performance_trend = "insufficient_data" ∧
    (generate_report quiz_id [] time_taken).patterns.rushing = false ∧
    (generate_report quiz_id [] time_taken).patterns.fatigue = false ∧
    (generate_report quiz_id [] time_taken).patterns.guessing = false ∧
    (generate_report quiz_id [] time_taken).patterns.consistent = false ∧
    (generate_report quiz_id [] time_taken).patterns.improving = false ∧
    (generate_report quiz_id [] time_taken).patterns.declining = false ∧
    (generate_report quiz_id [] time_taken).average_time = none ∧
    (generate_report quiz_id [] time_taken).time_per_correct = none := by
  simp [generate_report, countCorrect, identify_patterns, calculate_streak,
    calculate_trend, tallyBy, tallyRatios, tallyRatiosGuarded]

/-- C9: with at least five answers, `fatigue` and `declining` are flagged
exactly when the second-half accuracy (halves split by integer floor
division of the index) is more than 0.2 below the first-half accuracy, and
`improving` exactly when it exceeds it by more than 0.2; with fewer than
five answers all three flags stay false (and nothing raises). -/
theorem C9_half_split_flags (answers : List AnswerData) :
    (5 ≤ answers.length →
      (((identify_patterns answers).fatigue = true ↔
          secondHalfAccuracy answers < firstHalfAccuracy answers - 0.2) ∧
       ((identify_patterns answers).declining = true ↔
          secondHalfAccuracy answers < firstHalfAccuracy answers - 0.2) ∧
       ((identify_patterns answers).improving = true ↔
          secondHalfAccuracy answers > firstHalfAccuracy answers + 0.2))) ∧
    (answers.length < 5 →
      (identify_patterns answers).fatigue = false ∧
      (identify_patterns answers).declining = false ∧
      (identify_patterns answers).improving = false) := by
  constructor
  · intro h5
    have hne : answers ≠ [] := by
      intro h
      rw [h] at h5
      simp at h5
    by_cases h1 : secondHalfAccuracy answers < firstHalfAccuracy answers - (0.2 : ℚ)
    · have h2 : ¬ (secondHalfAccuracy answers > firstHalfAccuracy answers + (0.2 : ℚ)) := by
        linarith
      simp [identify_patterns, hne, h5, h1, h2, ite_fatigue, ite_declining,
        ite_improving]
    · by_cases h2 : secondHalfAccuracy answers > firstHalfAccuracy answers + (0.2 : ℚ)
      · simp [identify_patterns, hne, h5, h1, h2, ite_fatigue, ite_declining,
          ite_improving]
      · simp [identify_patterns, hne, h5, h1, h2, ite_fatigue, ite_declining,
          ite_improving]
  · intro hlt
    by_cases hne : answers = []
    · rw [hne]
      simp [identify_patterns]
    · have h5 : ¬ (5 ≤ answers.length) := by omega
      simp [identify_patterns, hne, h5, ite_fatigue, ite_declining, ite_improving]

/-- C9 witness: the sequence true,true,true,false,false,false (halves
accuracy 1 then 0) raises both fatigue and declining. -/
theorem C9_half_split_flags_witness :
    (identify_patterns threeUpThreeDown).fatigue = true ∧
    (identify_patterns threeUpThreeDown).declining = true := by
  have h := (C9_half_split_flags threeUpThreeDown).1 (by decide)
  have hacc : secondHalfAccuracy threeUpThreeDown <
      firstHalfAccuracy threeUpThreeDown - 0.2 := by
    norm_num [secondHalfAccuracy, firstHalfAccuracy, threeUpThreeDown, countCorrect]
  exact ⟨h.1.mpr hacc, h.2.1.mpr hacc⟩

/-- C2 counterexample: for requested count 10, a profile that is both slow
(average 150s > 120s, so the timing rule yields 8) and rapidly improving
(velocity 0.2 > 0.1, so the velocity rule yields 13): the code returns 13,
not the cumulative 11 = min 20 (max 5 (10-2) + 3) the claim implies —
the velocity adjustment is computed from the original base count and
overwrites the timing adjustment. -/
theorem C2_counterexample :
    cfgGetInt (adjust_question_count [("num_questions", ConfigVal.int 10)]
      slowImprovingProfile) "num_questions" 10 = 13 ∧
    (13 : ℤ) ≠ min 20 (max 5 (10 - 2) + 3) := by
  constructor
  · norm_num [adjust_question_count, slowImprovingProfile, cfgGetInt, dget,
      dset, dmem, List.find?]
  · decide

/-- C2 amended: both adjustments are computed from the same captured base
count `config.get('num_questions', 10)`; when several conditions hold the
last write wins — velocity takes precedence over timing — so the final
count reflects exactly one adjustment, never a cumulative one. -/
theorem C2_question_count_last_write_wins (config : Config)
    (profile : LearnerProfile) :
    cfgGetInt (adjust_question_count config profile) "num_questions" 10 =
      (if profile.learning_velocity > 0.1 then
        min 20 (cfgGetInt config "num_questions" 10 + 3)
      else if profile.learning_velocity < -0.1 then
        max 5 (cfgGetInt config "num_questions" 10 - 3)
      else if profile.average_time_per_question > 120 then
        max 5 (cfgGetInt config "num_questions" 10 - 2)
      else if 0 < profile.average_time_per_question ∧
          profile.average_time_per_question < 30 then
        min 20 (cfgGetInt config "num_questions" 10 + 2)
      else cfgGetInt config "num_questions" 10) := by
  have hset : ∀ (c : Config) (n : ℤ),
      cfgGetInt (dset c "num_questions" (ConfigVal.int n)) "num_questions" 10 = n := by
    intro c n
    unfold cfgGetInt
    rw [dget_dset_self]
  simp only [adjust_question_count]
  split_ifs <;> simp_all
  all_goals linarith

/-- C8 counterexample: the attempt counter counts every attempt, timed or
not, so after one untimed attempt the first timing observation 60 yields
average (0·1 + 60)/2 = 30, not 60 — the first observed time does not
become the average when earlier untimed attempts exist. -/
theorem C8_counterexample :
    (track_answer_analytics (track_answer_analytics {} { is_correct := false })
        { is_correct := true, time_taken := some 60 }).average_time = 30 ∧
    ((30 : ℚ) ≠ 60) := by
  constructor
  · norm_num [track_answer_analytics]
  · norm_num

/-- C8 amended: every timed call updates the average by the incremental-mean
formula with `n` the new attempt count (one more than before, hence ≥ 1 and
never a division by zero when the stored count is non-negative); the first
observed time becomes the average itself exactly when the timed call is the
question's first attempt. -/
theorem C8_incremental_mean (analytics : QuestionAnalytics) (a : AnswerData)
    (t : ℚ) (ht : a.time_taken = some t) :
    (track_answer_analytics analytics a).attempts = analytics.attempts + 1 ∧
    (track_answer_analytics analytics a).average_time =
      (analytics.average_time * (((analytics.attempts + 1 : ℤ) : ℚ) - 1) + t) /
        ((analytics.attempts + 1 : ℤ) : ℚ) ∧
    (0 ≤ analytics.attempts → 1 ≤ ((analytics.attempts + 1 : ℤ) : ℚ)) ∧
    (analytics.attempts = 0 →
      (track_answer_analytics analytics a).average_time = t) := by
  have hone : ∀ h : 0 ≤ analytics.attempts,
      (1 : ℚ) ≤ ((analytics.attempts + 1 : ℤ) : ℚ) := by
    intro h
    have h1 : (1 : ℤ) ≤ analytics.attempts + 1 := by omega
    exact_mod_cast h1
  have hA : (track_answer_analytics analytics a).attempts = analytics.attempts + 1 := by
    cases hic : a.is_correct <;> rcases hua : a.user_answer with _ | w <;>
      simp [track_answer_analytics, ht, hic, hua, ite_attempts]
  have hB : (track_answer_analytics analytics a).average_time =
      (analytics.average_time * (((analytics.attempts + 1 : ℤ) : ℚ) - 1) + t) /
        ((analytics.attempts + 1 : ℤ) : ℚ) := by
    cases hic : a.is_correct <;> rcases hua : a.user_answer with _ | w <;>
      simp [track_answer_analytics, ht, hic, hua, ite_average_time, ite_attempts]
  refine ⟨hA, hB, hone, fun h0 => ?_⟩
  rw [hB, h0]
  norm_num

/-- C8 witness: a timed correct first attempt with time 60 on fresh
analytics. -/
theorem C8_incremental_mean_witness :
    (track_answer_analytics {} { is_correct := true, time_taken := some 60 }).attempts =
      ({} : QuestionAnalytics).attempts + 1 ∧
    (track_answer_analytics {} { is_correct := true, time_taken := some 60 }).average_time =
      (({} : QuestionAnalytics).average_time *
        (((({} : QuestionAnalytics).attempts + 1 : ℤ) : ℚ) - 1) + 60) /
        ((({} : QuestionAnalytics).attempts + 1 : ℤ) : ℚ) ∧
    (0 ≤ ({} : QuestionAnalytics).attempts →
      1 ≤ ((({} : QuestionAnalytics).attempts + 1 : ℤ) : ℚ)) ∧
    (({} : QuestionAnalytics).attempts = 0 →
      (track_answer_analytics {} { is_correct := true, time_taken := some 60 }).average_time = 60) :=
  C8_incremental_mean {} { is_correct := true, time_taken := some 60 } 60 rfl

/-- C3 counterexample: on an empty base configuration (and a fresh learner)
the adjusted configuration contains the key `difficulty_distribution`, which
the caller never requested and which is not `focus_topics` — so
`focus_topics` is not the single invented key. -/
theorem C3_counterexample :
    dmem (adjust_config 0 ⟨[]⟩ [] {}).1 "difficulty_distribution" = true ∧
    dmem ([] : Config) "difficulty_distribution" = false ∧
    "difficulty_distribution" ≠ "focus_topics" := by
  refine ⟨?_, rfl, by decide⟩
  simp only [adjust_config]
  apply select_question_types_dmem
  apply adjust_question_count_dmem
  apply select_adaptive_topics_dmem
  unfold adjust_difficulty_distribution
  exact dmem_dset_self _ _ _

/-- C3 amended: the adjusted configuration contains no key absent from the
caller's base configuration except `difficulty_distribution` and
`focus_topics`, which are always added, and possibly `num_questions` and
`question_types`, which the count/type steps may add. -/
theorem C3_keys_frame (now : ℤ) (s : AdaptiveEngineState) (config : Config)
    (history : LearningHistory) :
    (∀ k ∈ dkeys (adjust_config now s config history).1,
      k ∈ dkeys config ∨
        k ∈ ["difficulty_distribution", "focus_topics", "num_questions",
             "question_types"]) ∧
    dmem (adjust_config now s config history).1 "difficulty_distribution" = true ∧
    dmem (adjust_config now s config history).1 "focus_topics" = true := by
  have hsub : dkeys (adjust_config now s config history).1 ⊆
      dkeys config ++ ["difficulty_distribution", "focus_topics",
        "num_questions", "question_types"] := by
    simp only [adjust_config]
    apply select_question_types_keys
    · apply adjust_question_count_keys
      · apply select_adaptive_topics_keys
        · apply adjust_difficulty_distribution_keys
          · exact fun x hx => List.mem_append.mpr (Or.inl hx)
          · simp
        · simp
      · simp
    · simp
  refine ⟨?_, ?_, ?_⟩
  · intro k hk
    exact List.mem_append.mp (hsub hk)
  · simp only [adjust_config]
    apply select_question_types_dmem
    apply adjust_question_count_dmem
    apply select_adaptive_topics_dmem
    unfold adjust_difficulty_distribution
    exact dmem_dset_self _ _ _
  · simp only [adjust_config]
    apply select_question_types_dmem
    apply adjust_question_count_dmem
    unfold select_adaptive_topics
    exact dmem_dset_self _ _ _

/-- C3 witness: the always-added key at the empty base configuration. -/
theorem C3_keys_frame_witness :
    "difficulty_distribution" ∈ dkeys ([] : Config) ∨
    "difficulty_distribution" ∈ ["difficulty_distribution", "focus_topics",
      "num_questions", "question_types"] :=
  (C3_keys_frame 0 ⟨[]⟩ [] {}).1 "difficulty_distribution"
    (mem_dkeys_of_dmem _ _ (C3_keys_frame 0 ⟨[]⟩ [] {}).2.1)

/-- C7: importing an exported profile reconstructs a stored profile with
identical mastery map, bloom-performance map, counters and last-session
timestamp; the timestamp survives the (second-lossless) isoformat
serialization. -/
theorem C7_export_import_roundtrip (s t : AdaptiveEngineState)
    (user_id : String) (p : LearnerProfile)
    (h : dget s.learner_profiles user_id = some p) :
    ∃ p2, dget (import_profile t (export_profile s user_id).1).learner_profiles
        p.user_id = some p2 ∧
      p2.topics_mastery = p.topics_mastery ∧
      p2.bloom_performance = p.bloom_performance ∧
      p2.total_questions_answered = p.total_questions_answered ∧
      p2.correct_answers = p.correct_answers ∧
      p2.last_session = p.last_session := by
  unfold export_profile get_or_create_profile
  rw [h]
  unfold import_profile
  cases hls : p.last_session with
  | none =>
    simp only [hls, Option.map_none]
    exact ⟨_, dget_dset_self _ _ _, rfl, rfl, rfl, rfl, rfl⟩
  | some ls =>
    simp only [hls, Option.map_some, isoformatRoundTrip]
    exact ⟨_, dget_dset_self _ _ _, rfl, rfl, rfl, rfl,
      by simp [hls, isoformatRoundTrip]⟩

/-- C7 witness: the round trip at a concrete populated store. -/
theorem C7_export_import_roundtrip_witness :
    ∃ p2, dget (import_profile ⟨[]⟩ (export_profile storedState "u").1).learner_profiles
        storedProfile.user_id = some p2 ∧
      p2.topics_mastery = storedProfile.topics_mastery ∧
      p2.bloom_performance = storedProfile.bloom_performance ∧
      p2.total_questions_answered = storedProfile.total_questions_answered ∧
      p2.correct_answers = storedProfile.correct_answers ∧
      p2.last_session = storedProfile.last_session :=
  C7_export_import_roundtrip storedState ⟨[]⟩ "u" storedProfile
    (by simp [storedState, dget, List.find?])

/-- C4 amended: `adjust_config` is deterministic given the requesting
learner's stored profile — two stores agreeing on that one profile produce
the same adjusted configuration (for the same clock value, config and
history) — and it touches no other learner's profile.  It is not a pure
function of its arguments, because it also rewrites the stored profile
(see the counterexample). -/
theorem C4_profile_scoped_determinism (now : ℤ) (s1 s2 : AdaptiveEngineState)
    (config : Config) (history : LearningHistory)
    (h : dget s1.learner_profiles (history.user_id.getD "anonymous") =
         dget s2.learner_profiles (history.user_id.getD "anonymous")) :
    (adjust_config now s1 config history).1 =
      (adjust_config now s2 config history).1 ∧
    (∀ uid, uid ≠ history.user_id.getD "anonymous" →
      dget (adjust_config now s1 config history).2.learner_profiles uid =
        dget s1.learner_profiles uid) := by
  have hp : (get_or_create_profile s1 (history.user_id.getD "anonymous")).1 =
      (get_or_create_profile s2 (history.user_id.getD "anonymous")).1 := by
    unfold get_or_create_profile
    rw [h]
    rcases dget s2.learner_profiles (history.user_id.getD "anonymous") with _ | p <;>
      rfl
  constructor
  · simp only [adjust_config]
    rw [hp]
  · intro uid huid
    simp only [adjust_config]
    rw [dget_dset_ne _ _ _ _ huid]
    unfold get_or_create_profile
    cases hd : dget s1.learner_profiles (history.user_id.getD "anonymous")
    · simp only [hd]
      exact dget_dset_ne _ _ _ _ huid
    · simp only [hd]

/-- C4 witness: locality at a fresh store — another learner's (absent)
profile entry is untouched. -/
theorem C4_profile_scoped_determinism_witness :
    (adjust_config 0 ⟨[]⟩ [] {}).1 = (adjust_config 0 ⟨[]⟩ [] {}).1 ∧
    dget (adjust_config 0 ⟨[]⟩ [] {}).2.learner_profiles "someone_else" =
      dget (⟨[]⟩ : AdaptiveEngineState).learner_profiles "someone_else" :=
  ⟨(C4_profile_scoped_determinism 0 ⟨[]⟩ ⟨[]⟩ [] {} rfl).1,
   (C4_profile_scoped_determinism 0 ⟨[]⟩ ⟨[]⟩ [] {} rfl).2 "someone_else"
     (by decide)⟩

/-- C4 counterexample: two successive `adjust_config` calls with identical
clock, config and history return different configurations, because the
first call rewrote the stored profile (the EMA pass lowers the algebra
mastery from 0.66 to 0.5424, below the 0.6 focus threshold, so only the
second call emits a focus topic).  The claim that `adjust_config` returns
identical results for identical arguments is false. -/
theorem C4_counterexample :
    cfgGetStrs (adjust_config 0 ⟨[]⟩ [] twoSessionHistory).1 "focus_topics" [] = [] ∧
    cfgGetStrs (adjust_config 0 (adjust_config 0 ⟨[]⟩ [] twoSessionHistory).2 []
        twoSessionHistory).1 "focus_topics" [] = ["algebra"] ∧
    (adjust_config 0 ⟨[]⟩ [] twoSessionHistory).1 ≠
      (adjust_config 0 (adjust_config 0 ⟨[]⟩ [] twoSessionHistory).2 []
        twoSessionHistory).1 := by
  have hA : cfgGetStrs (adjust_config 0 ⟨[]⟩ [] twoSessionHistory).1
      "focus_topics" [] = [] := by
    with_unfolding_all rfl
  have hB : cfgGetStrs (adjust_config 0 (adjust_config 0 ⟨[]⟩ [] twoSessionHistory).2
      [] twoSessionHistory).1 "focus_topics" [] = ["algebra"] := by
    with_unfolding_all rfl
  refine ⟨hA, hB, fun h => ?_⟩
  have h2 : cfgGetStrs (adjust_config 0 ⟨[]⟩ [] twoSessionHistory).1
      "focus_topics" [] =
      cfgGetStrs (adjust_config 0 (adjust_config 0 ⟨[]⟩ [] twoSessionHistory).2
        [] twoSessionHistory).1 "focus_topics" [] := by
    rw [h]
  rw [hA, hB] at h2
  cases h2

/-- C5: both profile-update paths preserve the profile invariant — the
correct-answer counter never exceeds the total, and all mastery and
bloom-performance values stay in [0,1] — provided every incoming session /
report satisfies the same per-record bounds (weighted averaging is
convexity-preserving). -/
theorem C5_profile_invariants :
    (∀ (now : ℤ) (profile : LearnerProfile) (history : LearningHistory),
      ProfileSound profile →
      (∀ s ∈ history.recent_sessions.getD [], SessionSound s) →
      ProfileSound (update_profile_from_history now profile history)) ∧
    (∀ (now : ℤ) (profile : LearnerProfile) (r : QuizReportIn),
      ProfileSound profile → ReportSound r →
      ProfileSound (update_user_model_profile now profile r)) := by
  constructor
  · intro now profile history hp hs
    have hfold : ∀ (l : List SessionData) (q : LearnerProfile),
        ProfileSound q → (∀ s ∈ l, SessionSound s) →
        ProfileSound (l.foldl (fun p s =>
          { p with
            total_questions_answered :=
              p.total_questions_answered + s.questions_answered,
            correct_answers := p.correct_answers + s.correct_answers,
            topics_mastery := emaFold 0.7 0.3 p.topics_mastery s.topic_performance,
            bloom_performance :=
              emaFold 0.7 0.3 p.bloom_performance s.bloom_performance }) q) := by
      intro l
      induction l with
      | nil =>
        intro q hq _
        simpa using hq
      | cons s rest ih =>
        intro q hq hl
        simp only [List.foldl_cons]
        exact ih _ (session_step_sound q s hq (hl s (List.mem_cons_self s rest)))
          (fun x hx => hl x (List.mem_cons_of_mem s hx))
    cases hrs : history.recent_sessions with
    | none =>
      simp only [update_profile_from_history, hrs]
      exact sound_set_last _ _ (identify_sw_sound _ (sound_velocity_ite _ _ _ hp))
    | some sessions =>
      have hs' : ∀ s ∈ sessions, SessionSound s := by
        simpa [hrs] using hs
      simp only [update_profile_from_history, hrs]
      exact sound_set_last _ _ (identify_sw_sound _
        (sound_velocity_ite _ _ _ (hfold sessions profile hp hs')))
  · intro now profile r hp hr
    obtain ⟨g1, g2, g3⟩ := hr
    simp only [update_user_model_profile]
    exact identify_sw_sound _ (sound_set_last _ _ (sound_avg_stage _ _
      (sound_update_bloom _ _ 0.6 0.4 (by norm_num) (by norm_num) (by norm_num)
        (sound_update_topics _ _ 0.6 0.4 (by norm_num) (by norm_num) (by norm_num)
          (sound_counters_step profile r.total_questions r.correct_answers g1 hp)
          g2)
        g3)))

/-- C5 witness: a fresh profile updated once through each path with bounded
inputs. -/
theorem C5_profile_invariants_witness :
    ProfileSound (update_profile_from_history 0 { user_id := "u" } soundHistory) ∧
    ProfileSound (update_user_model_profile 0 { user_id := "u" } soundReport) :=
  ⟨C5_profile_invariants.1 0 { user_id := "u" } soundHistory
      (by norm_num [ProfileSound])
      (by norm_num [soundHistory, soundSession, SessionSound]),
   C5_profile_invariants.2 0 { user_id := "u" } soundReport
      (by norm_num [ProfileSound])
      (by norm_num [soundReport, ReportSound])⟩

end OppaTalent
